import Mathlib

/-!
Verification of the recommendation engine of the `snowflake-fine-tuning`
repository: a shallow embedding in Lean 4 of the pure decision logic of the
Sizing Advisor (`cost-optimization/right-sizing/recommend_sizes.py`), the
Scaling Advisor (`cost-optimization/auto-scaling/configure_scaling.py`), the
Clustering Advisor (`performance/clustering/recommend_clustering_keys.py`)
and the shared cost helpers (`cost-optimization/snowflake_utils.py`),
together with theorems settling the stated properties of the engine.

Modelling conventions:
- Python floats are modelled as `Option ℚ`, where `none` plays the role of
  IEEE NaN (the value pandas delivers for a missing statistic).  Arithmetic
  on `none` yields `none` and every ordered comparison against `none` is
  `false`, exactly as NaN behaves in Python.
- Machine floats carry no other behaviour the engine relies on (the engine
  only compares, adds, multiplies and divides by non-zero constants), so ℚ
  is an adequate carrier.
- Environment configuration (`os.getenv('SNOWFLAKE_CREDIT_COST', '3.0')`)
  is modelled as an `Option ℚ` argument (`none` = variable unset).
- Display-only strings (f-string rationale text, `considerations`,
  `suggested_keys`) are not part of any decision and are omitted from the
  embedded records; the branch structure that selects them is kept intact.
-/

/-- Python float: `none` stands for NaN / a missing (NULL) statistic. -/
abbrev PyF := Option ℚ

/-- NaN-propagating addition is not needed; multiplication of two Python
floats: NaN absorbs. -/
def pyMul : PyF → PyF → PyF
  | some a, some b => some (a * b)
  | _, _ => none

/-- NaN-propagating subtraction of Python floats. -/
def pySub : PyF → PyF → PyF
  | some a, some b => some (a - b)
  | _, _ => none

/-- Python `<` on floats: any comparison with NaN is `False`. -/
def pyLt : PyF → PyF → Bool
  | some a, some b => decide (a < b)
  | _, _ => false

/-- Python `>` on floats: any comparison with NaN is `False`. -/
def pyGt (a b : PyF) : Bool := pyLt b a

/-- Python `<=` on floats: any comparison with NaN is `False`. -/
def pyLe : PyF → PyF → Bool
  | some a, some b => decide (a ≤ b)
  | _, _ => false

@[simp] theorem pyMul_some (a b : ℚ) : pyMul (some a) (some b) = some (a * b) := rfl
@[simp] theorem pyMul_none_left (b : PyF) : pyMul none b = none := rfl
@[simp] theorem pyMul_none_right (a : PyF) : pyMul a none = none := by cases a <;> rfl
@[simp] theorem pySub_some (a b : ℚ) : pySub (some a) (some b) = some (a - b) := rfl
@[simp] theorem pySub_none_left (b : PyF) : pySub none b = none := rfl
@[simp] theorem pySub_none_right (a : PyF) : pySub a none = none := by cases a <;> rfl
@[simp] theorem pyLt_some (a b : ℚ) : pyLt (some a) (some b) = decide (a < b) := rfl
@[simp] theorem pyLt_none_left (b : PyF) : pyLt none b = false := rfl
@[simp] theorem pyLt_none_right (a : PyF) : pyLt a none = false := by cases a <;> rfl
@[simp] theorem pyGt_def (a b : PyF) : pyGt a b = pyLt b a := rfl
@[simp] theorem pyLe_some (a b : ℚ) : pyLe (some a) (some b) = decide (a ≤ b) := rfl
@[simp] theorem pyLe_none_left (b : PyF) : pyLe none b = false := rfl
@[simp] theorem pyLe_none_right (a : PyF) : pyLe a none = false := by cases a <;> rfl

/-- Python `int(x)` truncation toward zero, on an exact rational. -/
def pyInt (q : ℚ) : ℤ := if 0 ≤ q then q.floor else -((-q).floor)

/-! ## Shared cost helpers — `cost-optimization/snowflake_utils.py` -/

/-- `get_warehouse_credit_cost` (snowflake_utils.py lines 104–113):
`float(os.getenv('SNOWFLAKE_CREDIT_COST', '3.0'))`.  The environment
variable, already parsed to a rational, is the argument; when it is unset
(`none`) the source falls back to the documented default `3.0`. -/
def get_warehouse_credit_cost (env : Option ℚ) : ℚ :=
  match env with
  | some r => r
  | none => 3

/-- `calculate_cost` (snowflake_utils.py lines 116–118):
`credits_used * get_warehouse_credit_cost()`. -/
def calculate_cost (env : Option ℚ) (credits_used : ℚ) : ℚ :=
  credits_used * get_warehouse_credit_cost env

/-- The size→credits table of `parse_warehouse_size`
(snowflake_utils.py lines 140–151). -/
def size_to_credits : List (String × ℕ) :=
  [("X-SMALL", 1), ("SMALL", 2), ("MEDIUM", 4), ("LARGE", 8),
   ("X-LARGE", 16), ("XX-LARGE", 32), ("XXX-LARGE", 64),
   ("4X-LARGE", 128), ("5X-LARGE", 256), ("6X-LARGE", 512)]

/-- ASCII upper-casing of one character, the behaviour of Python's
`str.upper()` on the basic-latin size labels the engine handles. -/
def pyUpperChar (c : Char) : Char :=
  if 97 ≤ c.toNat ∧ c.toNat ≤ 122 then Char.ofNat (c.toNat - 32) else c

/-- `size.upper()`: ASCII upper-casing of a size label. -/
def pyUpper (s : String) : String := ⟨s.data.map pyUpperChar⟩

/-- `parse_warehouse_size` (snowflake_utils.py lines 138–152):
dictionary lookup on the upper-cased size label, defaulting to `0`. -/
def parse_warehouse_size (size : String) : ℕ :=
  ((size_to_credits.lookup (pyUpper size)).getD 0)

/-- The ordered capacity ladder: the tier names of `size_to_credits`. -/
def warehouse_size_ladder : List String := size_to_credits.map Prod.fst

/-- `recommend_warehouse_size` (snowflake_utils.py lines 155–176): the
chained `<=` comparisons, on a Python float (NaN falls through every
comparison to the final `else`). -/
def recommend_warehouse_size (credits_per_hour : PyF) : String :=
  if pyLe credits_per_hour (some 1) then "X-SMALL"
  else if pyLe credits_per_hour (some 2) then "SMALL"
  else if pyLe credits_per_hour (some 4) then "MEDIUM"
  else if pyLe credits_per_hour (some 8) then "LARGE"
  else if pyLe credits_per_hour (some 16) then "X-LARGE"
  else if pyLe credits_per_hour (some 32) then "XX-LARGE"
  else if pyLe credits_per_hour (some 64) then "XXX-LARGE"
  else if pyLe credits_per_hour (some 128) then "4X-LARGE"
  else if pyLe credits_per_hour (some 256) then "5X-LARGE"
  else "6X-LARGE"

/-- C5: for every size name `s` on the capacity ladder, recommending a size
for exactly `parse_warehouse_size s` credits per hour yields `s` back —
the round-up-to-nearest-tier operation is exact at tier boundaries. -/
theorem ladder_round_trip :
    ∀ s ∈ warehouse_size_ladder,
      recommend_warehouse_size (some ((parse_warehouse_size s : ℕ) : ℚ)) = s := by
  decide

/-- Witness for C5 at the concrete tier `MEDIUM` (4 credits/hour). -/
theorem ladder_round_trip_witness :
    "MEDIUM" ∈ warehouse_size_ladder ∧
      recommend_warehouse_size (some ((parse_warehouse_size "MEDIUM" : ℕ) : ℚ)) = "MEDIUM" :=
  ⟨by decide, ladder_round_trip "MEDIUM" (by decide)⟩

/-- C7 counterexample: with no credit-to-currency rate configured,
`get_warehouse_credit_cost` does not fail — it silently falls back to the
default rate `3.0` and `calculate_cost` proceeds with it, so a savings
computation (here for 100 credits) completes normally instead of raising a
`ConfigurationError`. -/
theorem missing_rate_uses_default :
    get_warehouse_credit_cost none = 3 ∧ calculate_cost none 100 = 300 := by
  refine ⟨rfl, ?_⟩
  norm_num [calculate_cost, get_warehouse_credit_cost]

/-- C7 (amended): with no rate configured, every cost/savings computation
proceeds with the default rate of 3 currency units per credit. -/
theorem missing_rate_default_cost (credits : ℚ) :
    calculate_cost none credits = credits * 3 := by
  unfold calculate_cost get_warehouse_credit_cost
  norm_num

/-! ## Sizing Advisor — `cost-optimization/right-sizing/recommend_sizes.py` -/

/-- One row of the usage-pattern DataFrame consumed by
`generate_sizing_recommendations` (recommend_sizes.py lines 128–135 and
151).  Statistics that can be NULL in the metrics store arrive as NaN and
are Python floats (`PyF`); `ACTIVE_HOURS` is a `COUNT(DISTINCT …)` and is
always a number. -/
structure SizingRow where
  warehouse_name : String
  warehouse_size : String
  active_hours : ℚ
  avg_credits_per_hour : PyF
  p95_credits : PyF
  max_credits_per_hour : PyF
  stddev_credits : PyF
  avg_queries_per_hour : PyF
  max_concurrent_queries : PyF
  avg_concurrent_queries : PyF
deriving DecidableEq

/-- The recommendation dictionary appended per warehouse by
`generate_sizing_recommendations` (recommend_sizes.py lines 209–226).
The display-only `rationale` / `considerations` strings are omitted; the
branch structure that selects them is kept in `sizing_recommendation`. -/
structure SizingRec where
  warehouse : String
  current_size : String
  current_credits_per_hour : ℕ
  recommended_size : String
  recommended_credits_per_hour : ℕ
  avg_credits_used : PyF
  p95_credits_used : PyF
  max_credits_used : PyF
  active_hours : ℚ
  savings_pct : ℚ
  estimated_savings : PyF
  confidence : String
deriving DecidableEq

/-- The per-row body of `generate_sizing_recommendations`
(recommend_sizes.py lines 128–226), as a pure function of one row and the
configured credit rate:
- lines 130–135: parse the current size and read the statistics;
- lines 143–148: the average-based and P95-based candidate tiers;
- lines 151–152: `high_concurrency = max_concurrent > current_credits * 8
  if pd.notna(max_concurrent) else False` (a NaN comparison is `False`
  either way);
- lines 154–176: the first-match decision ladder and its confidence;
- lines 178–194: savings percentage and the dollar estimate, with the
  guarded division by `current_credits`. -/
def sizing_recommendation (env : Option ℚ) (row : SizingRow) : SizingRec :=
  let current_credits := parse_warehouse_size row.warehouse_size
  let avg_credits := row.avg_credits_per_hour
  let p95_credits := row.p95_credits
  let avg_based_size := recommend_warehouse_size avg_credits
  let p95_based_size := recommend_warehouse_size p95_credits
  let high_concurrency :=
    pyGt row.max_concurrent_queries (some ((current_credits : ℚ) * 8))
  let size_conf : String × String :=
    if high_concurrency then (p95_based_size, "MEDIUM")
    else if pyLt avg_credits (some ((current_credits : ℚ) * (1 / 2))) then
      (p95_based_size, "HIGH")
    else if pyGt p95_credits (pyMul avg_credits (some (3 / 2))) then
      (p95_based_size, "HIGH")
    else (avg_based_size, "HIGH")
  let recommended_credits := parse_warehouse_size size_conf.1
  let credit_diff : ℤ := (current_credits : ℤ) - (recommended_credits : ℤ)
  let savings_pct : ℚ :=
    if 0 < current_credits then (credit_diff : ℚ) / (current_credits : ℚ) else 0
  let total_credits_used := pyMul avg_credits (some row.active_hours)
  let current_cost := total_credits_used.map (calculate_cost env)
  let projected_cost : PyF :=
    if 0 < current_credits then
      (pyMul total_credits_used
        (some ((recommended_credits : ℚ) / (current_credits : ℚ)))).map
        (calculate_cost env)
    else
      some (calculate_cost env ((recommended_credits : ℚ) * row.active_hours))
  let savings := pySub current_cost projected_cost
  { warehouse := row.warehouse_name
    current_size := row.warehouse_size
    current_credits_per_hour := current_credits
    recommended_size := size_conf.1
    recommended_credits_per_hour := recommended_credits
    avg_credits_used := avg_credits
    p95_credits_used := p95_credits
    max_credits_used := row.max_credits_per_hour
    active_hours := row.active_hours
    savings_pct := savings_pct
    estimated_savings := savings
    confidence := size_conf.2 }

/-- The error taxonomy named by the specification (§7).  The source code of
the repository defines none of these: the type exists so that the spec's
error-handling properties can be stated and compared with what the code
does. -/
inductive AdvisorError
  | insufficientData
  | invalidProfile
  | configurationError
deriving DecidableEq

/-- Outcome of one entity's sizing computation.  The loop body of
`generate_sizing_recommendations` (recommend_sizes.py lines 128–226)
contains no validation and no try/except: it unconditionally appends a
recommendation dictionary, so the embedded per-row computation always
produces `ok` and never a `failed` outcome. -/
inductive SizingOutcome
  | ok (r : SizingRec)
  | failed (e : AdvisorError)
deriving DecidableEq

/-- Per-row outcome: the source has no error path, so this is always `ok`
(recommend_sizes.py lines 128–226). -/
def generate_sizing_recommendation (env : Option ℚ) (row : SizingRow) :
    SizingOutcome :=
  SizingOutcome.ok (sizing_recommendation env row)

/-- The whole batch loop `for _, row in df.iterrows()` of
`generate_sizing_recommendations` (recommend_sizes.py lines 126–228): a
plain map over the rows, one outcome per row. -/
def generate_sizing_recommendations (env : Option ℚ) (rows : List SizingRow) :
    List SizingOutcome :=
  rows.map (generate_sizing_recommendation env)

/-- The four-rule decision table of claim C1, transcribed from the
specification's wording (§4.1 "Decision order"): rules tried in order,
first match wins; each rule names the recommended tier and confidence. -/
def spec_sizing_decision (currentCapacity : ℕ) (average p95 : ℚ)
    (maxConcurrent : Option ℚ) : String × String :=
  if (match maxConcurrent with
      | some m => decide ((currentCapacity : ℚ) * 8 < m)
      | none => false) then
    (recommend_warehouse_size (some p95), "MEDIUM")
  else if average < (currentCapacity : ℚ) * (1 / 2) then
    (recommend_warehouse_size (some p95), "HIGH")
  else if average * (3 / 2) < p95 then
    (recommend_warehouse_size (some p95), "HIGH")
  else
    (recommend_warehouse_size (some average), "HIGH")

/-- C1: for a profile whose average and p95 statistics are present, the
Sizing Advisor's recommended tier and confidence follow the four-rule
first-match decision table of the specification exactly. -/
theorem sizing_decision_follows_spec (env : Option ℚ) (row : SizingRow)
    (a p : ℚ) (ha : row.avg_credits_per_hour = some a)
    (hp : row.p95_credits = some p) :
    ((sizing_recommendation env row).recommended_size,
        (sizing_recommendation env row).confidence)
      = spec_sizing_decision (parse_warehouse_size row.warehouse_size) a p
          row.max_concurrent_queries := by
  unfold sizing_recommendation spec_sizing_decision
  cases hm : row.max_concurrent_queries <;>
    simp [ha, hp, hm, mul_comm]

def rowHighConc : SizingRow :=
  { warehouse_name := "WH_CONC"
    warehouse_size := "SMALL"
    active_hours := 50
    avg_credits_per_hour := some 3
    p95_credits := some 4
    max_credits_per_hour := some 6
    stddev_credits := some 1
    avg_queries_per_hour := some 40
    max_concurrent_queries := some 20
    avg_concurrent_queries := some 5 }

/-- Witness for C1: a SMALL warehouse (2 credits/hour) with 20 concurrent
queries triggers the high-concurrency rule. -/
theorem sizing_decision_follows_spec_witness :
    ((sizing_recommendation (some 3) rowHighConc).recommended_size,
        (sizing_recommendation (some 3) rowHighConc).confidence)
      = spec_sizing_decision (parse_warehouse_size rowHighConc.warehouse_size)
          3 4 rowHighConc.max_concurrent_queries :=
  sizing_decision_follows_spec (some 3) rowHighConc 3 4 rfl rfl

/-- A significantly oversized warehouse: LARGE (8 credits/hour) with an
average load of 1 credit/hour, p95 of 1, over 100 active hours. -/
def rowOversized : SizingRow :=
  { warehouse_name := "WH_OVER"
    warehouse_size := "LARGE"
    active_hours := 100
    avg_credits_per_hour := some 1
    p95_credits := some 1
    max_credits_per_hour := some 2
    stddev_credits := some 0
    avg_queries_per_hour := some 20
    max_concurrent_queries := none
    avg_concurrent_queries := none }

/-- C2 counterexample: for `rowOversized` the code's estimated savings is
`some (525/2)` (it scales the actual average usage by the capacity ratio),
not `cost(currentCapacity × activeHours) − cost(recommendedCapacity ×
activeHours)` = 2100 as the claim states. -/
theorem sizing_savings_not_capacity_difference :
    (sizing_recommendation (some 3) rowOversized).estimated_savings
      ≠ some (calculate_cost (some 3)
            ((parse_warehouse_size rowOversized.warehouse_size : ℚ)
              * rowOversized.active_hours)
          - calculate_cost (some 3)
            (((sizing_recommendation (some 3)
                  rowOversized).recommended_credits_per_hour : ℚ)
              * rowOversized.active_hours)) := by
  have h8 : parse_warehouse_size "LARGE" = 8 := by decide
  have h1 : parse_warehouse_size "X-SMALL" = 1 := by decide
  norm_num [sizing_recommendation, rowOversized, recommend_warehouse_size,
    calculate_cost, get_warehouse_credit_cost, h8, h1, pyLt, pyGt, pyLe,
    pyMul, pySub]

/-- Projection lemma: the reported current capacity is the parsed size. -/
theorem sizing_current_credits (env : Option ℚ) (row : SizingRow) :
    (sizing_recommendation env row).current_credits_per_hour
      = parse_warehouse_size row.warehouse_size := rfl

/-- C2 (amended): with a known (non-zero) current capacity and a present
average, the estimated savings is `cost(average × activeHours) −
cost(average × activeHours × recommendedCapacity / currentCapacity)` — the
projection scales the actual usage by the capacity ratio — and the result
is negative when the recommendation increases capacity, given positive
average usage, active hours and rate. -/
theorem sizing_savings_scales_actual_usage (env : Option ℚ) (row : SizingRow)
    (a : ℚ) (ha : row.avg_credits_per_hour = some a)
    (hcur : 0 < parse_warehouse_size row.warehouse_size) :
    (sizing_recommendation env row).estimated_savings
      = some (calculate_cost env (a * row.active_hours)
          - calculate_cost env ((a * row.active_hours)
              * (((sizing_recommendation env row).recommended_credits_per_hour : ℚ)
                / ((sizing_recommendation env row).current_credits_per_hour : ℚ))))
    ∧ ((sizing_recommendation env row).current_credits_per_hour
          < (sizing_recommendation env row).recommended_credits_per_hour →
        0 < a → 0 < row.active_hours → 0 < get_warehouse_credit_cost env →
        ∃ s, (sizing_recommendation env row).estimated_savings = some s ∧ s < 0) := by
  have hformula :
      (sizing_recommendation env row).estimated_savings
        = some (calculate_cost env (a * row.active_hours)
            - calculate_cost env ((a * row.active_hours)
                * (((sizing_recommendation env row).recommended_credits_per_hour : ℚ)
                  / ((sizing_recommendation env row).current_credits_per_hour : ℚ)))) := by
    unfold sizing_recommendation
    simp [ha, hcur]
  refine ⟨hformula, fun hlt hapos hh hrate => ?_⟩
  refine ⟨_, hformula, ?_⟩
  have hC0 : (0 : ℚ) < ((sizing_recommendation env row).current_credits_per_hour : ℚ) := by
    rw [sizing_current_credits]
    exact_mod_cast hcur
  have hCR : ((sizing_recommendation env row).current_credits_per_hour : ℚ)
      < ((sizing_recommendation env row).recommended_credits_per_hour : ℚ) := by
    exact_mod_cast hlt
  have hdiv : 1 < ((sizing_recommendation env row).recommended_credits_per_hour : ℚ)
      / ((sizing_recommendation env row).current_credits_per_hour : ℚ) :=
    (one_lt_div hC0).mpr hCR
  have hah : 0 < a * row.active_hours := mul_pos hapos hh
  have hmul : a * row.active_hours
      < a * row.active_hours
        * (((sizing_recommendation env row).recommended_credits_per_hour : ℚ)
          / ((sizing_recommendation env row).current_credits_per_hour : ℚ)) := by
    calc a * row.active_hours = a * row.active_hours * 1 := (mul_one _).symm
    _ < _ := mul_lt_mul_of_pos_left hdiv hah
  have hcost : calculate_cost env (a * row.active_hours)
      < calculate_cost env ((a * row.active_hours)
          * (((sizing_recommendation env row).recommended_credits_per_hour : ℚ)
            / ((sizing_recommendation env row).current_credits_per_hour : ℚ))) := by
    unfold calculate_cost
    exact mul_lt_mul_of_pos_right hmul hrate
  linarith

/-- Witness for C2 (amended) at the oversized warehouse `rowOversized`. -/
theorem sizing_savings_scales_actual_usage_witness :
    (sizing_recommendation (some 3) rowOversized).estimated_savings
      = some (calculate_cost (some 3) (1 * rowOversized.active_hours)
          - calculate_cost (some 3) ((1 * rowOversized.active_hours)
              * (((sizing_recommendation (some 3) rowOversized).recommended_credits_per_hour : ℚ)
                / ((sizing_recommendation (some 3) rowOversized).current_credits_per_hour : ℚ))))
    ∧ ((sizing_recommendation (some 3) rowOversized).current_credits_per_hour
          < (sizing_recommendation (some 3) rowOversized).recommended_credits_per_hour →
        0 < (1 : ℚ) → 0 < rowOversized.active_hours → 0 < get_warehouse_credit_cost (some 3) →
        ∃ s, (sizing_recommendation (some 3) rowOversized).estimated_savings = some s ∧ s < 0) :=
  sizing_savings_scales_actual_usage (some 3) rowOversized 1 rfl (by decide)

/-- Scenario D of the specification: a profile with missing `average` and
`p95` statistics (NaN in the DataFrame). -/
def rowMissing : SizingRow :=
  { warehouse_name := "WH_NODATA"
    warehouse_size := "LARGE"
    active_hours := 10
    avg_credits_per_hour := none
    p95_credits := none
    max_credits_per_hour := none
    stddev_credits := none
    avg_queries_per_hour := none
    max_concurrent_queries := none
    avg_concurrent_queries := none }

/-- C3 counterexample: on a profile with missing `average` and `p95` the
Sizing Advisor does not fail with `InsufficientData` — the loop body has no
validation, the NaN falls through every comparison, and a normal
recommendation for the top tier `6X-LARGE` is produced; the batch output
for `[rowMissing, rowOversized]` is two `ok` outcomes with no error
collected anywhere. -/
theorem sizing_missing_stats_not_error :
    generate_sizing_recommendation (some 3) rowMissing
        ≠ SizingOutcome.failed AdvisorError.insufficientData
      ∧ (sizing_recommendation (some 3) rowMissing).recommended_size = "6X-LARGE"
      ∧ generate_sizing_recommendations (some 3) [rowMissing, rowOversized]
          = [SizingOutcome.ok (sizing_recommendation (some 3) rowMissing),
             SizingOutcome.ok (sizing_recommendation (some 3) rowOversized)] := by
  refine ⟨by simp [generate_sizing_recommendation], ?_,
    by simp [generate_sizing_recommendations, generate_sizing_recommendation]⟩
  unfold sizing_recommendation
  simp [rowMissing, recommend_warehouse_size]

/-- C3 (amended): a profile with missing `average` and `p95` does not
produce an error: the advisor returns an ordinary recommendation whose
tier is the NaN-propagation default `6X-LARGE` and whose dollar estimate
is NaN, and the batch map simply continues. -/
theorem sizing_missing_stats_default_recommendation (env : Option ℚ)
    (row : SizingRow) (ha : row.avg_credits_per_hour = none)
    (hp : row.p95_credits = none) :
    generate_sizing_recommendation env row
        = SizingOutcome.ok (sizing_recommendation env row)
      ∧ (sizing_recommendation env row).recommended_size = "6X-LARGE"
      ∧ (sizing_recommendation env row).estimated_savings = none := by
  refine ⟨rfl, ?_, ?_⟩
  · unfold sizing_recommendation
    simp [ha, hp, recommend_warehouse_size]
    split <;> rfl
  · unfold sizing_recommendation
    simp [ha, hp, recommend_warehouse_size]

/-- Witness for C3 (amended) at the concrete Scenario-D row. -/
theorem sizing_missing_stats_default_recommendation_witness :
    generate_sizing_recommendation (some 3) rowMissing
        = SizingOutcome.ok (sizing_recommendation (some 3) rowMissing)
      ∧ (sizing_recommendation (some 3) rowMissing).recommended_size = "6X-LARGE"
      ∧ (sizing_recommendation (some 3) rowMissing).estimated_savings = none :=
  sizing_missing_stats_default_recommendation (some 3) rowMissing rfl rfl

/-- C10: when the current capacity is unknown (`parse_warehouse_size`
returns `0`, e.g. for size `UNKNOWN`), the Sizing Advisor takes the
guarded branch: the savings percentage is `0` and the dollar projection is
computed from the recommended capacity (`recommended_credits ×
active_hours`), not by dividing by the current capacity. -/
theorem sizing_unknown_capacity_safe (env : Option ℚ) (row : SizingRow)
    (h0 : parse_warehouse_size row.warehouse_size = 0) :
    (sizing_recommendation env row).savings_pct = 0
      ∧ (sizing_recommendation env row).estimated_savings
          = pySub ((pyMul row.avg_credits_per_hour
                (some row.active_hours)).map (calculate_cost env))
              (some (calculate_cost env
                (((sizing_recommendation env row).recommended_credits_per_hour : ℚ)
                  * row.active_hours))) := by
  unfold sizing_recommendation
  simp [h0]

/-- A warehouse whose size label is not on the ladder: capacity 0. -/
def rowUnknown : SizingRow :=
  { warehouse_name := "WH_UNK"
    warehouse_size := "UNKNOWN"
    active_hours := 10
    avg_credits_per_hour := some 2
    p95_credits := some 3
    max_credits_per_hour := some 5
    stddev_credits := some 1
    avg_queries_per_hour := some 15
    max_concurrent_queries := some 2
    avg_concurrent_queries := some 1 }

/-- Witness for C10 at the concrete `UNKNOWN`-size row. -/
theorem sizing_unknown_capacity_safe_witness :
    (sizing_recommendation (some 3) rowUnknown).savings_pct = 0
      ∧ (sizing_recommendation (some 3) rowUnknown).estimated_savings
          = pySub ((pyMul rowUnknown.avg_credits_per_hour
                (some rowUnknown.active_hours)).map (calculate_cost (some 3)))
              (some (calculate_cost (some 3)
                (((sizing_recommendation (some 3)
                      rowUnknown).recommended_credits_per_hour : ℚ)
                  * rowUnknown.active_hours))) :=
  sizing_unknown_capacity_safe (some 3) rowUnknown (by decide)

/-! ## Scaling Advisor — `cost-optimization/auto-scaling/configure_scaling.py` -/

/-- One row of the concurrency DataFrame consumed by
`generate_scaling_recommendations` (configure_scaling.py lines 111–124).
Cluster bounds and the window peaks can be NULL (the source guards them
with `or 1` / `or 0`). -/
structure ScalingRow where
  warehouse_name : String
  warehouse_type : String
  min_cluster_count : Option ℕ
  max_cluster_count : Option ℕ
  scaling_policy : Option String
  absolute_peak_concurrent : ℚ
  p95_concurrent : ℚ
  avg_peak_concurrent : ℚ
  hours_with_queuing : Option ℚ
  active_hours_total : ℚ
  max_queued : ℚ
  business_hours_peak : Option ℚ
  off_hours_peak : Option ℚ
deriving DecidableEq

/-- Python `value or 1` on a nullable cluster count: `None` and `0` are
falsy and give `1` (configure_scaling.py lines 114–115). -/
def pyOrNat1 : Option ℕ → ℕ
  | none => 1
  | some 0 => 1
  | some n => n

/-- `queue_percentage = (hours_with_queuing / active_hours * 100) if
active_hours > 0 else 0`, with `hours_with_queuing or 0`
(configure_scaling.py lines 122–124). -/
def scaling_queue_percentage (row : ScalingRow) : ℚ :=
  if 0 < row.active_hours_total then
    (row.hours_with_queuing.getD 0) / row.active_hours_total * 100
  else 0

/-- `needs_multi_cluster` (configure_scaling.py lines 127–134): peak
concurrency above the threshold of 8, or queuing in more than 5% of
active hours, or a maximum queue depth above 5. -/
def scaling_needs_multi_cluster (row : ScalingRow) : Bool :=
  decide (8 < row.absolute_peak_concurrent)
    || decide (5 < scaling_queue_percentage row)
    || decide (5 < row.max_queued)

/-- The cluster-bound / policy / confidence block computed inside the loop
of `generate_scaling_recommendations`. -/
structure ScalingCore where
  recommended_min : ℤ
  recommended_max : ℤ
  policy : Option String
  rationale : String
  confidence : String
deriving DecidableEq

/-- Lines 136–168 of configure_scaling.py: if multi-cluster is not needed,
a single cluster; otherwise `recommended_min = max(1, int(p95 / 8))`,
`recommended_max = min(max(recommended_min, int(peak / 8) + 1), 10)`, an
ECONOMY policy when `business_hours_peak > off_hours_peak * 2` (both
`or 0`), STANDARD otherwise, and confidence HIGH when the queue
percentage exceeds 10. -/
def scaling_core (row : ScalingRow) : ScalingCore :=
  if scaling_needs_multi_cluster row then
    let recommended_min : ℤ := max 1 (pyInt (row.p95_concurrent / 8))
    let recommended_max : ℤ :=
      min (max recommended_min (pyInt (row.absolute_peak_concurrent / 8) + 1)) 10
    let business_hours_peak := row.business_hours_peak.getD 0
    let off_hours_peak := row.off_hours_peak.getD 0
    let confidence := if 10 < scaling_queue_percentage row then "HIGH" else "MEDIUM"
    if off_hours_peak * 2 < business_hours_peak then
      { recommended_min := recommended_min
        recommended_max := recommended_max
        policy := some "ECONOMY"
        rationale := "Time-based workload variation - Economy policy for cost efficiency"
        confidence := confidence }
    else
      { recommended_min := recommended_min
        recommended_max := recommended_max
        policy := some "STANDARD"
        rationale := "Consistent high concurrency - Standard policy for performance"
        confidence := confidence }
  else
    { recommended_min := 1
      recommended_max := 1
      policy := none
      rationale := "Low concurrency - single cluster sufficient"
      confidence := "HIGH" }

/-- The cost-impact label (configure_scaling.py lines 174–183): a larger
recommended maximum is an increase, a smaller one a decrease whose dollar
estimate is the placeholder `calculate_cost(100)`, otherwise neutral. -/
inductive CostImpact
  | increase
  | decrease (estimated_savings : ℚ)
  | neutral
deriving DecidableEq

/-- Lines 176–183 of configure_scaling.py. -/
def scaling_cost_impact (env : Option ℚ) (current_max : ℕ)
    (recommended_max : ℤ) : CostImpact :=
  if (current_max : ℤ) < recommended_max then CostImpact.increase
  else if recommended_max < (current_max : ℤ) then
    CostImpact.decrease (calculate_cost env 100)
  else CostImpact.neutral

/-- The scaling recommendation dictionary (configure_scaling.py lines
202–220), display-only `considerations` omitted. -/
structure ScalingRec where
  warehouse : String
  warehouse_type : String
  current_min_clusters : ℕ
  current_max_clusters : ℕ
  current_policy : Option String
  recommended_min_clusters : ℤ
  recommended_max_clusters : ℤ
  recommended_policy : Option String
  peak_concurrent_queries : ℚ
  p95_concurrent : ℚ
  queue_percentage : ℚ
  needs_multi_cluster : Bool
  cost_impact : CostImpact
  rationale : String
  confidence : String
deriving DecidableEq

/-- The per-row body of `generate_scaling_recommendations`
(configure_scaling.py lines 111–220), including the over-provisioning
rationale override of lines 170–172. -/
def generate_scaling_recommendation (env : Option ℚ) (row : ScalingRow) :
    ScalingRec :=
  let current_min := pyOrNat1 row.min_cluster_count
  let current_max := pyOrNat1 row.max_cluster_count
  let core := scaling_core row
  let needs := scaling_needs_multi_cluster row
  let rationale :=
    if 1 < current_max ∧ needs = false then
      "Over-provisioned - reduce to single cluster"
    else core.rationale
  { warehouse := row.warehouse_name
    warehouse_type := row.warehouse_type
    current_min_clusters := current_min
    current_max_clusters := current_max
    current_policy := row.scaling_policy
    recommended_min_clusters := core.recommended_min
    recommended_max_clusters := core.recommended_max
    recommended_policy := core.policy
    peak_concurrent_queries := row.absolute_peak_concurrent
    p95_concurrent := row.p95_concurrent
    queue_percentage := scaling_queue_percentage row
    needs_multi_cluster := needs
    cost_impact := scaling_cost_impact env current_max core.recommended_max
    rationale := rationale
    confidence := core.confidence }

theorem scaling_rec_min_proj (env : Option ℚ) (row : ScalingRow) :
    (generate_scaling_recommendation env row).recommended_min_clusters
      = (scaling_core row).recommended_min := rfl

theorem scaling_rec_max_proj (env : Option ℚ) (row : ScalingRow) :
    (generate_scaling_recommendation env row).recommended_max_clusters
      = (scaling_core row).recommended_max := rfl

theorem scaling_cur_max_proj (env : Option ℚ) (row : ScalingRow) :
    (generate_scaling_recommendation env row).current_max_clusters
      = pyOrNat1 row.max_cluster_count := rfl

theorem scaling_cost_impact_proj (env : Option ℚ) (row : ScalingRow) :
    (generate_scaling_recommendation env row).cost_impact
      = scaling_cost_impact env (pyOrNat1 row.max_cluster_count)
          (scaling_core row).recommended_max := rfl

/-- C6: with no queuing (queue percentage `0`, maximum queue depth `0`)
and peak concurrency at most the threshold of 8, the Scaling Advisor
recommends a single cluster (`recommendedMax = 1`). -/
theorem scaling_no_queuing_single_cluster (env : Option ℚ) (row : ScalingRow)
    (h1 : scaling_queue_percentage row = 0) (h2 : row.max_queued = 0)
    (h3 : row.absolute_peak_concurrent ≤ 8) :
    (generate_scaling_recommendation env row).recommended_max_clusters = 1 := by
  have hpeak : ¬ (8 : ℚ) < row.absolute_peak_concurrent := not_lt.mpr h3
  have hneeds : scaling_needs_multi_cluster row = false := by
    unfold scaling_needs_multi_cluster
    rw [h1, h2]
    simp [hpeak]
  rw [scaling_rec_max_proj]
  unfold scaling_core
  rw [hneeds]
  rfl

/-- An over-provisioned multi-cluster warehouse with no queuing and low
concurrency, currently allowed up to 5 clusters. -/
def rowOverProvA : ScalingRow :=
  { warehouse_name := "WH_A"
    warehouse_type := "STANDARD"
    min_cluster_count := some 1
    max_cluster_count := some 5
    scaling_policy := some "STANDARD"
    absolute_peak_concurrent := 2
    p95_concurrent := 2
    avg_peak_concurrent := 1
    hours_with_queuing := some 0
    active_hours_total := 1
    max_queued := 0
    business_hours_peak := some 1
    off_hours_peak := some 1 }

/-- The same workload currently allowed up to 2 clusters. -/
def rowOverProvB : ScalingRow :=
  { warehouse_name := "WH_B"
    warehouse_type := "STANDARD"
    min_cluster_count := some 1
    max_cluster_count := some 2
    scaling_policy := some "STANDARD"
    absolute_peak_concurrent := 2
    p95_concurrent := 2
    avg_peak_concurrent := 1
    hours_with_queuing := some 0
    active_hours_total := 1
    max_queued := 0
    business_hours_peak := some 1
    off_hours_peak := some 1 }

theorem rowOverProvA_queue_pct : scaling_queue_percentage rowOverProvA = 0 := by
  simp [scaling_queue_percentage, rowOverProvA]

theorem rowOverProvB_queue_pct : scaling_queue_percentage rowOverProvB = 0 := by
  simp [scaling_queue_percentage, rowOverProvB]

/-- Witness for C6 at the concrete no-queuing profile `rowOverProvA`. -/
theorem scaling_no_queuing_single_cluster_witness :
    (generate_scaling_recommendation (some 3) rowOverProvA).recommended_max_clusters = 1 :=
  scaling_no_queuing_single_cluster (some 3) rowOverProvA
    rowOverProvA_queue_pct rfl (by decide)

/-- A profile whose p95 hourly-peak concurrency is 160: the recommended
minimum, `max(1, int(160/8)) = 20`, is not clamped by the 10-cluster
ceiling that clamps the recommended maximum. -/
def rowHighP95 : ScalingRow :=
  { warehouse_name := "WH_P95"
    warehouse_type := "STANDARD"
    min_cluster_count := some 1
    max_cluster_count := some 1
    scaling_policy := none
    absolute_peak_concurrent := 160
    p95_concurrent := 160
    avg_peak_concurrent := 100
    hours_with_queuing := some 0
    active_hours_total := 1
    max_queued := 0
    business_hours_peak := some 0
    off_hours_peak := some 0 }

theorem pyInt_twenty : pyInt ((160 : ℚ) / 8) = 20 := by
  rw [show (160 : ℚ) / 8 = 20 by norm_num]
  decide

/-- C9 counterexample: at `rowHighP95` the Scaling Advisor recommends
`recommendedMin = 20` but `recommendedMax = 10`, violating
`recommendedMin ≤ recommendedMax`. -/
theorem scaling_min_exceeds_max :
    (generate_scaling_recommendation (some 3) rowHighP95).recommended_max_clusters
      < (generate_scaling_recommendation (some 3) rowHighP95).recommended_min_clusters := by
  have hneeds : scaling_needs_multi_cluster rowHighP95 = true := by
    unfold scaling_needs_multi_cluster
    have : (8 : ℚ) < rowHighP95.absolute_peak_concurrent := by
      norm_num [rowHighP95]
    simp [this]
  rw [scaling_rec_max_proj, scaling_rec_min_proj]
  unfold scaling_core
  rw [hneeds]
  simp only [rowHighP95, pyInt_twenty]
  norm_num

/-- C9 (amended): the Scaling Advisor always returns
`1 ≤ recommendedMin`, `1 ≤ recommendedMax ≤ 10`, and
`recommendedMin ≤ recommendedMax` holds whenever `recommendedMin` itself
is within the 10-cluster ceiling — but `recommendedMin` is not clamped,
so the pair can be inverted when p95 concurrency exceeds 80. -/
theorem scaling_cluster_bounds (env : Option ℚ) (row : ScalingRow) :
    1 ≤ (generate_scaling_recommendation env row).recommended_min_clusters
      ∧ 1 ≤ (generate_scaling_recommendation env row).recommended_max_clusters
      ∧ (generate_scaling_recommendation env row).recommended_max_clusters ≤ 10
      ∧ ((generate_scaling_recommendation env row).recommended_min_clusters ≤ 10 →
          (generate_scaling_recommendation env row).recommended_min_clusters
            ≤ (generate_scaling_recommendation env row).recommended_max_clusters) := by
  rw [scaling_rec_min_proj, scaling_rec_max_proj]
  unfold scaling_core
  split
  · split <;> (dsimp only; split <;> (dsimp only; omega))
  · dsimp only
    omega

/-- Witness for C9 (amended) at the concrete profile `rowHighP95`. -/
theorem scaling_cluster_bounds_witness :
    1 ≤ (generate_scaling_recommendation (some 3) rowHighP95).recommended_min_clusters
      ∧ 1 ≤ (generate_scaling_recommendation (some 3) rowHighP95).recommended_max_clusters
      ∧ (generate_scaling_recommendation (some 3) rowHighP95).recommended_max_clusters ≤ 10
      ∧ ((generate_scaling_recommendation (some 3) rowHighP95).recommended_min_clusters ≤ 10 →
          (generate_scaling_recommendation (some 3) rowHighP95).recommended_min_clusters
            ≤ (generate_scaling_recommendation (some 3) rowHighP95).recommended_max_clusters) :=
  scaling_cluster_bounds (some 3) rowHighP95

/-- C8 counterexample: `rowOverProvA` has 4 clusters removed
(5 → 1) and `rowOverProvB` has 1 cluster removed (2 → 1), yet both
estimated savings are the identical flat placeholder
`calculate_cost(100) = 300` — the estimate does not depend on the removed
capacity at all. -/
theorem scaling_savings_ignores_removed_capacity :
    ((generate_scaling_recommendation (some 3) rowOverProvA).current_max_clusters : ℤ)
        - (generate_scaling_recommendation (some 3) rowOverProvA).recommended_max_clusters = 4
      ∧ ((generate_scaling_recommendation (some 3) rowOverProvB).current_max_clusters : ℤ)
        - (generate_scaling_recommendation (some 3) rowOverProvB).recommended_max_clusters = 1
      ∧ (generate_scaling_recommendation (some 3) rowOverProvA).cost_impact
          = CostImpact.decrease 300
      ∧ (generate_scaling_recommendation (some 3) rowOverProvB).cost_impact
          = CostImpact.decrease 300 := by
  have hA : scaling_needs_multi_cluster rowOverProvA = false := by
    unfold scaling_needs_multi_cluster
    rw [rowOverProvA_queue_pct]
    norm_num [rowOverProvA]
  have hB : scaling_needs_multi_cluster rowOverProvB = false := by
    unfold scaling_needs_multi_cluster
    rw [rowOverProvB_queue_pct]
    norm_num [rowOverProvB]
  have hcoreA : (scaling_core rowOverProvA).recommended_max = 1 := by
    unfold scaling_core
    rw [hA]
    rfl
  have hcoreB : (scaling_core rowOverProvB).recommended_max = 1 := by
    unfold scaling_core
    rw [hB]
    rfl
  refine ⟨?_, ?_, ?_, ?_⟩
  · rw [scaling_cur_max_proj, scaling_rec_max_proj, hcoreA]
    norm_num [rowOverProvA, pyOrNat1]
  · rw [scaling_cur_max_proj, scaling_rec_max_proj, hcoreB]
    norm_num [rowOverProvB, pyOrNat1]
  · rw [scaling_cost_impact_proj, hcoreA]
    norm_num [rowOverProvA, pyOrNat1, scaling_cost_impact, calculate_cost,
      get_warehouse_credit_cost]
  · rw [scaling_cost_impact_proj, hcoreB]
    norm_num [rowOverProvB, pyOrNat1, scaling_cost_impact, calculate_cost,
      get_warehouse_credit_cost]

/-- C8 (amended): whenever the Scaling Advisor recommends fewer maximum
clusters than the current configuration allows, the reported estimated
savings is the flat placeholder `calculate_cost(100)` — 100 credits at
the configured rate — independent of how many clusters are removed. -/
theorem scaling_decrease_flat_savings (env : Option ℚ) (row : ScalingRow)
    (h : (generate_scaling_recommendation env row).recommended_max_clusters
        < ((generate_scaling_recommendation env row).current_max_clusters : ℤ)) :
    (generate_scaling_recommendation env row).cost_impact
      = CostImpact.decrease (calculate_cost env 100) := by
  rw [scaling_rec_max_proj, scaling_cur_max_proj] at h
  rw [scaling_cost_impact_proj]
  unfold scaling_cost_impact
  rw [if_neg (by omega), if_pos h]

/-- Witness for C8 (amended) at the over-provisioned profile
`rowOverProvA` (5 current clusters, 1 recommended). -/
theorem scaling_decrease_flat_savings_witness :
    (generate_scaling_recommendation (some 3) rowOverProvA).cost_impact
      = CostImpact.decrease (calculate_cost (some 3) 100) :=
  scaling_decrease_flat_savings (some 3) rowOverProvA (by
    rw [scaling_rec_max_proj, scaling_cur_max_proj]
    have hA : scaling_needs_multi_cluster rowOverProvA = false := by
      unfold scaling_needs_multi_cluster
      rw [rowOverProvA_queue_pct]
      norm_num [rowOverProvA]
    have hcoreA : (scaling_core rowOverProvA).recommended_max = 1 := by
      unfold scaling_core
      rw [hA]
      rfl
    rw [hcoreA]
    norm_num [rowOverProvA, pyOrNat1])

/-! ## Clustering Advisor — `performance/clustering/recommend_clustering_keys.py` -/

/-- One row of the access-pattern DataFrame consumed by
`recommend_clustering_keys` (recommend_clustering_keys.py lines 148–157):
the aggregation columns of the query at lines 87–119. -/
structure ClusteringRow where
  database_name : String
  schema_name : String
  table_name : String
  row_count : ℚ
  table_bytes : ℚ
  current_clustering_key : Option String
  query_count : ℕ
  avg_execution_seconds : PyF
  total_execution_seconds : PyF
  avg_partition_scan_ratio : ℚ
  avg_bytes_scanned : PyF
deriving DecidableEq

/-- Python truthiness of the nullable clustering-key string: `None` and
the empty string are falsy. -/
def pyTruthyStr : Option String → Bool
  | none => false
  | some s => !(s == "")

/-- Python `current_key or 'None'` (recommend_clustering_keys.py
line 213). -/
def pyStrOrNone : Option String → String
  | none => "None"
  | some s => if s == "" then "None" else s

/-- The clustering recommendation dictionary
(recommend_clustering_keys.py lines 208–222); the display-only
`suggested_keys` and `considerations` strings are omitted. -/
structure ClusteringRec where
  database : String
  schema : String
  table : String
  table_size_gb : ℚ
  current_clustering_key : String
  query_count : ℕ
  avg_execution_seconds : PyF
  partition_scan_ratio : ℚ
  priority : String
  recommendation : String
  potential_monthly_savings : PyF
deriving DecidableEq

/-- The loop of `recommend_clustering_keys`
(recommend_clustering_keys.py lines 144–224): per row,
`table_size_gb = table_bytes / 1024³ if table_bytes else 0` (line 157),
`needs_clustering = scan_ratio > 0.5 or (no key and query_count > 20) or
table_size_gb > 100` (lines 160–164), `continue` when not needed
(lines 166–167), the priority/recommendation block (lines 172–193) and
the heuristic savings `cost(bytes/1024³ × 0.01) × query_count × 0.3 × 30`
(lines 197–198 and 220). -/
def recommend_clustering_keys (env : Option ℚ) (rows : List ClusteringRow) :
    List ClusteringRec :=
  rows.filterMap (fun row =>
    let partition_scan_ratio := row.avg_partition_scan_ratio
    let table_size_gb : ℚ :=
      if row.table_bytes = 0 then 0 else row.table_bytes / 1024 ^ 3
    let needs_clustering : Bool :=
      decide ((1 / 2 : ℚ) < partition_scan_ratio)
        || (!pyTruthyStr row.current_clustering_key
              && decide (20 < row.query_count))
        || decide ((100 : ℚ) < table_size_gb)
    if needs_clustering = false then none
    else
      let pr : String × String :=
        if pyTruthyStr row.current_clustering_key = false then
          (if 50 < row.query_count then "HIGH" else "MEDIUM",
            "Add clustering key")
        else if (7 / 10 : ℚ) < partition_scan_ratio then
          ("HIGH", "Re-evaluate clustering key")
        else ("LOW", "Monitor clustering health")
      let current_cost := row.avg_bytes_scanned.map
        (fun b => calculate_cost env (b / 1024 ^ 3 * (1 / 100))
          * (row.query_count : ℚ))
      let potential_savings := current_cost.map (fun c => c * (3 / 10))
      some
        { database := row.database_name
          schema := row.schema_name
          table := row.table_name
          table_size_gb := table_size_gb
          current_clustering_key := pyStrOrNone row.current_clustering_key
          query_count := row.query_count
          avg_execution_seconds := row.avg_execution_seconds
          partition_scan_ratio := partition_scan_ratio
          priority := pr.1
          recommendation := pr.2
          potential_monthly_savings := potential_savings.map (fun c => c * 30) })

/-- Modelled from the aggregation query of `analyze_table_access_patterns`
(recommend_clustering_keys.py lines 46–120): the query keeps only tables
with `row_count > 100000` (line 84) and `row_count > 0` (line 114), and
only those touched by at least 5 distinct queries
(`HAVING COUNT(DISTINCT qf.query_id) >= 5`, line 117), returning at most
100 rows (`LIMIT 100`, line 119; the `ORDER BY` of line 118 only selects
which 100, which this property does not depend on). -/
def analyze_table_access_patterns (rows : List ClusteringRow) :
    List ClusteringRow :=
  (rows.filter (fun r =>
    decide ((100000 : ℚ) < r.row_count) && decide ((0 : ℚ) < r.row_count)
      && decide (5 ≤ r.query_count))).take 100

/-- The Clustering Advisor pipeline of `main`
(recommend_clustering_keys.py lines 316–327): analyze, then recommend. -/
def clustering_pipeline (env : Option ℚ) (rows : List ClusteringRow) :
    List ClusteringRec :=
  recommend_clustering_keys env (analyze_table_access_patterns rows)

/-- C4: every recommendation emitted by the Clustering Advisor pipeline
concerns a table with at least 5 distinct queries in the window — a table
with fewer than 5 queries never receives a recommendation, regardless of
its scan ratio or size. -/
theorem clustering_eligibility_floor (env : Option ℚ)
    (rows : List ClusteringRow) (r : ClusteringRec)
    (h : r ∈ clustering_pipeline env rows) : 5 ≤ r.query_count := by
  unfold clustering_pipeline recommend_clustering_keys at h
  obtain ⟨row, hmem, hf⟩ := List.mem_filterMap.mp h
  have hmem2 := List.take_subset _ _ (by
    unfold analyze_table_access_patterns at hmem
    exact hmem)
  rw [List.mem_filter] at hmem2
  have h5 : 5 ≤ row.query_count := by
    have hconj := hmem2.2
    simp only [Bool.and_eq_true, decide_eq_true_eq] at hconj
    exact hconj.2
  dsimp only at hf
  split at hf <;> split at hf <;>
    first
      | (rw [Option.some.injEq] at hf
         rw [← hf]
         exact h5)
      | simp at hf

/-- Scenario C of the specification: a 5 GB table with no clustering key,
60 distinct queries and a partition scan ratio of 0.85. -/
def rowTableC : ClusteringRow :=
  { database_name := "DB"
    schema_name := "PUBLIC"
    table_name := "EVENTS"
    row_count := 2000000
    table_bytes := 5 * 1024 ^ 3
    current_clustering_key := none
    query_count := 60
    avg_execution_seconds := some 2
    total_execution_seconds := some 120
    avg_partition_scan_ratio := 17 / 20
    avg_bytes_scanned := none }

/-- The recommendation the pipeline emits for `rowTableC`: priority HIGH,
"Add clustering key". -/
def recTableC : ClusteringRec :=
  { database := "DB"
    schema := "PUBLIC"
    table := "EVENTS"
    table_size_gb := 5
    current_clustering_key := "None"
    query_count := 60
    avg_execution_seconds := some 2
    partition_scan_ratio := 17 / 20
    priority := "HIGH"
    recommendation := "Add clustering key"
    potential_monthly_savings := none }

theorem recTableC_mem :
    recTableC ∈ clustering_pipeline (some 3) [rowTableC] := by
  norm_num [clustering_pipeline, analyze_table_access_patterns,
    recommend_clustering_keys, rowTableC, recTableC, pyTruthyStr,
    pyStrOrNone, List.filterMap]

/-- Witness for C4: the emitted recommendation for `rowTableC` indeed has
`query_count ≥ 5`. -/
theorem clustering_eligibility_floor_witness :
    recTableC ∈ clustering_pipeline (some 3) [rowTableC]
      ∧ 5 ≤ recTableC.query_count :=
  ⟨recTableC_mem,
    clustering_eligibility_floor (some 3) [rowTableC] recTableC recTableC_mem⟩
